import Mathlib

/-!
Verification development for the `wind_loads` repository: a shallow embedding of
the wind-pressure engine (`src/lib/wind.ts`) and of the pressure-composing parts
of the `WindForm` component, over exact real arithmetic, together with theorems
settling the specification claims about the engine.

JavaScript numbers are modelled as real numbers; the only non-finiteness the
code ever tests for (`Number.isFinite(input.overrideKz ?? NaN)`) is modelled by
the three-valued `OverrideKz` type.  The human-readable note strings built by
`calculateVelocityPressure` are modelled by the `Note` inductive, one
constructor per distinct pushed string, carrying the unformatted numeric
payloads that the source interpolates into the string.
-/

noncomputable section
/-- Exposure category enumeration, `src/lib/wind.ts` line 1. -/
inductive ExposureCategory
| B
| C
| D
deriving DecidableEq

/-- Risk category enumeration, `src/lib/wind.ts` line 2. -/
inductive RiskCategory
| I
| II
| III
| IV
deriving DecidableEq

/-- The `overrideKz?: number` field of `WindInput`: absent, present but
non-finite (NaN or an infinity), or present and finite with a real value.
`Number.isFinite(overrideKz ?? NaN)` holds exactly in the `finite` case. -/
inductive OverrideKz
| none
| nonfinite
| finite (x : ℝ)

/-- `WindInput` interface, `src/lib/wind.ts` lines 4-21.  Optional numeric
fields are `Option ℝ`; their defaults are applied with `Option.getD` at the
`??` sites of the source. -/
structure WindInput where
  windSpeedMph : ℝ
  exposure : ExposureCategory
  heightFt : ℝ
  directionalityFactor : Option ℝ
  topographicFactor : Option ℝ
  riskCategory : Option RiskCategory
  overrideKz : OverrideKz
  khFactor : Option ℝ

/-- One entry of the `pressureNotes` array.  `factorSummary` is the string
pushed at line 44 (carrying risk category, Kd, Kzt, I, Kz, Kh), `overrideUsed`
the conditional string of line 46 (carrying the automatic Kz), `formulaCitation`
the fixed string of line 48. -/
inductive Note
| factorSummary (riskCategory : RiskCategory) (kd kzt i kz kh : ℝ)
| overrideUsed (autoKz : ℝ)
| formulaCitation

/-- `WindResult` interface, `src/lib/wind.ts` lines 23-26. -/
structure WindResult where
  velocityPressurePsf : ℝ
  pressureNotes : List Note

/-- The `roundTo` helper, `src/lib/wind.ts` lines 93-96:
`Math.round(value * 10^decimals) / 10^decimals`, with JavaScript
`Math.round x = ⌊x + 1/2⌋` (ties away from minus infinity). -/
def roundTo (value : ℝ) (decimals : ℕ) : ℝ :=
  let factor : ℝ := 10 ^ decimals
  (⌊value * factor + 1 / 2⌋ : ℝ) / factor

/-- Alpha coefficients, `src/lib/wind.ts` lines 65-71. -/
def getAlpha : ExposureCategory → ℝ
| ExposureCategory.B => 7.0
| ExposureCategory.C => 9.5
| ExposureCategory.D => 11.5

/-- Zg values, `src/lib/wind.ts` lines 74-80. -/
def getZg : ExposureCategory → ℝ
| ExposureCategory.B => 1200
| ExposureCategory.C => 900
| ExposureCategory.D => 700

/-- Exposure coefficient Kz, `src/lib/wind.ts` lines 56-62.  The height is
clamped to [15, 500] (`Math.max(15, Math.min(heightFt, 500))`) and the result
rounded to 3 decimals; the exponentiation is the real power `x ^ (2 / α)`. -/
def getKz (exposure : ExposureCategory) (heightFt : ℝ) : ℝ :=
  let z : ℝ := max 15 (min heightFt 500)
  let alpha := getAlpha exposure
  let zg := getZg exposure
  let kz := 2.01 * (z / zg) ^ (2 / alpha)
  roundTo kz 3

/-- Importance factors, `src/lib/wind.ts` lines 83-91.  The source `switch`
carries a `default: return 1.0` branch that is unreachable for the closed
`RiskCategory` enumeration and therefore has no counterpart here. -/
def getImportanceFactor : RiskCategory → ℝ
| RiskCategory.I => 0.87
| RiskCategory.II => 1.0
| RiskCategory.III => 1.15
| RiskCategory.IV => 1.15

/-- The effective Kz of `src/lib/wind.ts` line 38:
`Number.isFinite(input.overrideKz ?? NaN) ? input.overrideKz : computedKz`. -/
def effectiveKz (input : WindInput) : ℝ :=
  match input.overrideKz with
  | OverrideKz.finite x => x
  | _ => getKz input.exposure input.heightFt

/-- `calculateVelocityPressure`, `src/lib/wind.ts` lines 31-53. -/
def calculateVelocityPressure (input : WindInput) : WindResult :=
  let kd := input.directionalityFactor.getD 0.85
  let kzt := input.topographicFactor.getD 1.0
  let riskCategory := input.riskCategory.getD RiskCategory.II
  let importance := getImportanceFactor riskCategory
  let computedKz := getKz input.exposure input.heightFt
  let kz := effectiveKz input
  let kh := input.khFactor.getD 1.0
  let qzBase := 0.00256 * kz * kzt * kh * input.windSpeedMph * input.windSpeedMph
  let qz := qzBase * importance
  let pressureNotes : List Note :=
    Note.factorSummary riskCategory kd kzt importance kz kh ::
      ((if kz ≠ computedKz then [Note.overrideUsed computedKz] else []) ++
        [Note.formulaCitation])
  { velocityPressurePsf := roundTo qz 3, pressureNotes := pressureNotes }

/-- The notes contain the manual-override message of `src/lib/wind.ts`
line 46. -/
def hasOverrideNote (notes : List Note) : Prop :=
  ∃ a, Note.overrideUsed a ∈ notes

/-- Roof type enumeration, `WindForm` source line 306. -/
inductive RoofType
| flat
| sloped
deriving DecidableEq

/-- Building enclosure enumeration, `WindForm` source line 307. -/
inductive BuildingEnclosure
| enclosed
| partially_enclosed
deriving DecidableEq

/-- The `{ positive, negative }` internal pressure coefficient pair. -/
structure Gcpi where
  positive : ℝ
  negative : ℝ

/-- `getGcpiValues`, `WindForm` source lines 428-435. -/
def getGcpiValues : BuildingEnclosure → Gcpi
| BuildingEnclosure.enclosed => { positive := 0.18, negative := -0.18 }
| BuildingEnclosure.partially_enclosed => { positive := 0.55, negative := -0.55 }

/-- Result record of `calculateWallCpValues`. -/
structure WallCp where
  windward : ℝ
  leeward : ℝ
  sidewall : ℝ

/-- The leeward-wall Cp if-chain of `calculateWallCpValues`, `WindForm` source
lines 318-329, as a function of the L/B plan aspect value. -/
def leewardOf (lb : ℝ) : ℝ :=
  if lb ≤ 1.0 then -0.5
  else if lb ≤ 2.0 then -0.5 + (lb - 1.0) * (-0.3 - (-0.5)) / (2.0 - 1.0)
  else if lb ≤ 4.0 then -0.3 + (lb - 2.0) * (-0.2 - (-0.3)) / (4.0 - 2.0)
  else -0.2

/-- `calculateWallCpValues`, `WindForm` source lines 310-338. -/
def calculateWallCpValues (roofL roofB : ℝ) : WallCp :=
  { windward := 0.8, leeward := leewardOf (roofL / roofB), sidewall := -0.7 }

/-- Result of `calculateRoofCpValues`: the source returns objects of two
different shapes (`{zone1, zone2, zone3}` for flat roofs, `{windward, leeward}`
for sloped roofs). -/
inductive RoofCp
| flatCp (zone1 zone2 zone3 : ℝ)
| slopedCp (windward leeward : ℝ)

/-- The flat-roof (zone1, zone3) Cp band if-chain of `calculateRoofCpValues`,
`WindForm` source lines 347-363, as a function of the L/B plan aspect value.
The source first assigns the defaults (0.8, -0.7) and then overwrites them in
the chain whose first band repeats the defaults; the net effect is this
if-chain. -/
def flatZoneCps (lb : ℝ) : ℝ × ℝ :=
  if lb ≤ 0.5 then (0.8, -0.7)
  else if lb ≤ 1.0 then (0.7, -0.6)
  else if lb ≤ 2.0 then (0.6, -0.5)
  else (0.5, -0.4)

/-- `calculateRoofCpValues`, `WindForm` source lines 341-378. -/
def calculateRoofCpValues (roofType : RoofType) (roofL roofB : ℝ) : RoofCp :=
  match roofType with
  | RoofType.flat =>
      RoofCp.flatCp (flatZoneCps (roofL / roofB)).1 0.5 (flatZoneCps (roofL / roofB)).2
  | RoofType.sloped => RoofCp.slopedCp 0.3 (-0.7)

/-- `calculateGustEffectFactor`, `WindForm` source lines 421-425: the rigid
building constant 0.85, its arguments kept but unused. -/
def calculateGustEffectFactor (_exposure : ExposureCategory) (_heightFt : ℝ) : ℝ :=
  0.85

/-- One entry of a pressure series: the physical zone width embedded in the
label where the source embeds one (`zoneWidth.toFixed(1)`), and the numeric
"pMax, pMin" pair the source formats with `toFixed(2)`. -/
structure PressureEntry where
  widthFt : Option ℝ
  pair : ℝ × ℝ

/-- `calculateRoofPressures`, `WindForm` source lines 381-409.  The call
`calculateRoofCpValues(roofType, roofL, roofB)` is inlined per branch (in the
flat branch it yields the `flatZoneCps` pair and the constant 0.5, in the
sloped branch the constants 0.3 and -0.7); the returned `cpValues` component is
kept as in the source. -/
def calculateRoofPressures (roofType : RoofType) (qz kd : ℝ) (gcpi : Gcpi)
    (roofL roofB gustFactor : ℝ) : List PressureEntry × RoofCp :=
  let q := qz * kd
  match roofType with
  | RoofType.flat =>
      let z := flatZoneCps (roofL / roofB)
      let zone1Width := min (roofB * 0.2) (roofL * 0.1)
      let zone2Width := roofB - zone1Width
      ([ { widthFt := some zone1Width,
           pair := (q * gustFactor * z.1 - q * gcpi.positive,
                    q * gustFactor * z.1 - q * gcpi.negative) },
         { widthFt := some zone2Width,
           pair := (q * gustFactor * 0.5 - q * gcpi.positive,
                    q * gustFactor * 0.5 - q * gcpi.negative) },
         { widthFt := some zone1Width,
           pair := (q * gustFactor * z.2 - q * gcpi.positive,
                    q * gustFactor * z.2 - q * gcpi.negative) } ],
       calculateRoofCpValues RoofType.flat roofL roofB)
  | RoofType.sloped =>
      ([ { widthFt := Option.none,
           pair := (q * gustFactor * 0.3 - q * gcpi.positive,
                    q * gustFactor * 0.3 - q * gcpi.negative) },
         { widthFt := Option.none,
           pair := (q * gustFactor * (-0.7) - q * gcpi.positive,
                    q * gustFactor * (-0.7) - q * gcpi.negative) } ],
       calculateRoofCpValues RoofType.sloped roofL roofB)

/-- The validated numeric form state of `WindForm` (source lines 455-486),
after the string fields have been parsed.  `useManualKz`/`manualKz` are folded
into a single `OverrideKz` value, which is what every
`calculateVelocityPressure` call site of the component passes. -/
structure FormInput where
  windSpeedMph : ℝ
  exposure : ExposureCategory
  numStories : ℕ
  storyHeightFt : ℝ
  directionalityFactor : ℝ
  riskCategory : RiskCategory
  roofType : RoofType
  buildingEnclosure : BuildingEnclosure
  roofLength : ℝ
  roofWidth : ℝ
  wallEvaluationHeight : ℝ
  overrideKz : OverrideKz

/-- The `WindInput` value the `WindForm` component passes to
`calculateVelocityPressure` at evaluation height `h` (source lines 519-526,
531-538, 588-595): topographic and Kh factors are left unset. -/
def windInputAt (f : FormInput) (h : ℝ) : WindInput :=
  { windSpeedMph := f.windSpeedMph
    exposure := f.exposure
    heightFt := h
    directionalityFactor := some f.directionalityFactor
    topographicFactor := Option.none
    riskCategory := some f.riskCategory
    overrideKz := f.overrideKz
    khFactor := Option.none }

/-- `topResult`, `WindForm` source lines 530-538: the velocity pressure at the
last story mid-height `(n - 0.5) × storyHeight`, used as the roof-height
velocity pressure. -/
def topResult (f : FormInput) : WindResult :=
  calculateVelocityPressure (windInputAt f (((f.numStories : ℝ) - 0.5) * f.storyHeightFt))

/-- `wallResult`, `WindForm` source lines 587-595: the velocity pressure at the
wall evaluation height. -/
def wallResult (f : FormInput) : WindResult :=
  calculateVelocityPressure (windInputAt f f.wallEvaluationHeight)

/-- The `wallPressures` array, `WindForm` source lines 596-603: windward,
leeward and sidewall pairs `(q·G·Cp − qi·Gcpi⁺, q·G·Cp − qi·Gcpi⁻)` with
`q = wallResult.velocityPressurePsf` and `qi = topResult.velocityPressurePsf`. -/
def wallPressures (f : FormInput) : List PressureEntry :=
  let gustFactor := calculateGustEffectFactor f.exposure ((f.numStories : ℝ) * f.storyHeightFt)
  let wallCpValues := calculateWallCpValues f.roofLength f.roofWidth
  let gcpi := getGcpiValues f.buildingEnclosure
  let q := (wallResult f).velocityPressurePsf
  let qi := (topResult f).velocityPressurePsf
  [ { widthFt := Option.none,
      pair := (q * gustFactor * wallCpValues.windward - qi * gcpi.positive,
               q * gustFactor * wallCpValues.windward - qi * gcpi.negative) },
    { widthFt := Option.none,
      pair := (q * gustFactor * wallCpValues.leeward - qi * gcpi.positive,
               q * gustFactor * wallCpValues.leeward - qi * gcpi.negative) },
    { widthFt := Option.none,
      pair := (q * gustFactor * wallCpValues.sidewall - qi * gcpi.positive,
               q * gustFactor * wallCpValues.sidewall - qi * gcpi.negative) } ]

/-- The roof pressure series produced by `WindForm` (source line 545):
`calculateRoofPressures` applied to the top-story velocity pressure, the form's
Kd, the enclosure's Gcpi pair, the plan dimensions and the gust factor. -/
def roofPressuresOf (f : FormInput) : List PressureEntry :=
  (calculateRoofPressures f.roofType (topResult f).velocityPressurePsf
    f.directionalityFactor (getGcpiValues f.buildingEnclosure)
    f.roofLength f.roofWidth
    (calculateGustEffectFactor f.exposure ((f.numStories : ℝ) * f.storyHeightFt))).1

/-- The concrete form state used by the counterexamples: 100 mph, exposure B,
3 stories of 10 ft, Kd = 0.85, risk II, flat 100 ft × 50 ft roof, enclosed,
walls evaluated at 15 ft, with a manual Kz override of 1 (so that every
velocity pressure evaluates to the exact rational 25.6 psf). -/
def cexForm : FormInput :=
  { windSpeedMph := 100
    exposure := ExposureCategory.B
    numStories := 3
    storyHeightFt := 10
    directionalityFactor := 0.85
    riskCategory := RiskCategory.II
    roofType := RoofType.flat
    buildingEnclosure := BuildingEnclosure.enclosed
    roofLength := 100
    roofWidth := 50
    wallEvaluationHeight := 15
    overrideKz := OverrideKz.finite 1 }

/-- The concrete `WindInput` exhibiting C10: every field inside its documented
range except the override, which is the finite negative number -1. -/
def c10Input : WindInput :=
  { windSpeedMph := 100
    exposure := ExposureCategory.B
    heightFt := 15
    directionalityFactor := some 0.85
    topographicFactor := some 1.0
    riskCategory := some RiskCategory.II
    overrideKz := OverrideKz.finite (-1)
    khFactor := some 1.0 }

/-- The concrete `WindInput` refuting C4 as stated: the override is a finite
number that happens to equal the computed Kz, so the source's
`kz !== computedKz` guard suppresses the override-used note. -/
def c4Input : WindInput :=
  { windSpeedMph := 115
    exposure := ExposureCategory.B
    heightFt := 15
    directionalityFactor := Option.none
    topographicFactor := Option.none
    riskCategory := Option.none
    overrideKz := OverrideKz.finite (getKz ExposureCategory.B 15)
    khFactor := Option.none }

/-- The concrete input used by the C4 witness: no override supplied. -/
def c4WitnessInput : WindInput :=
  { windSpeedMph := 115
    exposure := ExposureCategory.B
    heightFt := 20
    directionalityFactor := Option.none
    topographicFactor := Option.none
    riskCategory := Option.none
    overrideKz := OverrideKz.none
    khFactor := Option.none }

/-- Helper: rounding to 3 decimals is the identity on a real whose product
with 1000 is an integer. -/
theorem roundTo_three_eq_self (x : ℝ) (n : ℤ) (h : x * 1000 = (n : ℝ)) :
    roundTo x 3 = x := by
  have hf : ((10 : ℝ) ^ (3 : ℕ)) = 1000 := by norm_num
  simp only [roundTo, hf, h]
  have hfl : ⌊(n : ℝ) + 1 / 2⌋ = n := by
    rw [add_comm, Int.floor_add_int]
    norm_num
  rw [hfl]
  rw [← h]
  ring

/-- Helper: rounding to 3 decimals is monotone. -/
theorem roundTo_three_mono {x y : ℝ} (h : x ≤ y) : roundTo x 3 ≤ roundTo y 3 := by
  have hfl : ((⌊x * 10 ^ (3 : ℕ) + 1 / 2⌋ : ℤ) : ℝ) ≤ ((⌊y * 10 ^ (3 : ℕ) + 1 / 2⌋ : ℤ) : ℝ) := by
    exact_mod_cast Int.floor_mono (by linarith)
  simp only [roundTo]
  have hf : (0 : ℝ) < 10 ^ (3 : ℕ) := by norm_num
  exact (div_le_div_iff_of_pos_right hf).mpr hfl

/-- Helper: at `cexForm` the roof-height (top story) velocity pressure is
exactly 25.6 psf. -/
theorem cexForm_top : (topResult cexForm).velocityPressurePsf = 25.6 := by
  simp only [topResult, windInputAt, cexForm, calculateVelocityPressure, effectiveKz,
    Option.getD, getImportanceFactor]
  norm_num [roundTo]

/-- Helper: at `cexForm` the wall-height velocity pressure is exactly
25.6 psf. -/
theorem cexForm_wall : (wallResult cexForm).velocityPressurePsf = 25.6 := by
  simp only [wallResult, windInputAt, cexForm, calculateVelocityPressure, effectiveKz,
    Option.getD, getImportanceFactor]
  norm_num [roundTo]

/-- C1: for every `WindInput`, `calculateVelocityPressure` returns
`velocityPressurePsf = roundTo (0.00256 × Kz_effective × Kzt × Kh × V² × I) 3`,
with I resolved from the risk category by the fixed table
{I ↦ 0.87, II ↦ 1.0, III ↦ 1.15, IV ↦ 1.15} (default risk category II), and
the directionality factor Kd is not a factor of this result: the field is
invariant under any change of `directionalityFactor`. -/
theorem c1_velocity_pressure_formula (inp : WindInput) :
    (calculateVelocityPressure inp).velocityPressurePsf =
      roundTo (0.00256 * effectiveKz inp * inp.topographicFactor.getD 1.0 *
        inp.khFactor.getD 1.0 * inp.windSpeedMph ^ 2 *
        (match inp.riskCategory.getD RiskCategory.II with
         | RiskCategory.I => 0.87
         | RiskCategory.II => 1.0
         | RiskCategory.III => 1.15
         | RiskCategory.IV => 1.15)) 3
    ∧ ∀ d, (calculateVelocityPressure { inp with directionalityFactor := d }).velocityPressurePsf
        = (calculateVelocityPressure inp).velocityPressurePsf := by
  constructor
  · simp only [calculateVelocityPressure]
    congr 1
    cases h : inp.riskCategory.getD RiskCategory.II <;>
      simp only [getImportanceFactor, h] <;> ring
  · intro d
    simp [calculateVelocityPressure, effectiveKz]

/-- C5: for every exposure and height, `getKz` is
`roundTo (2.01 × (clamp(h, 15, 500) / zg) ^ (2/α)) 3` with
α = {B ↦ 7.0, C ↦ 9.5, D ↦ 11.5} and zg = {B ↦ 1200, C ↦ 900, D ↦ 700}, and
out-of-range heights are silently clamped: `getKz` agrees with its own value at
the clamped height. -/
theorem c5_kz_formula :
    (∀ h : ℝ, getKz ExposureCategory.B h =
        roundTo (2.01 * (max 15 (min h 500) / 1200) ^ ((2 : ℝ) / 7.0)) 3)
    ∧ (∀ h : ℝ, getKz ExposureCategory.C h =
        roundTo (2.01 * (max 15 (min h 500) / 900) ^ ((2 : ℝ) / 9.5)) 3)
    ∧ (∀ h : ℝ, getKz ExposureCategory.D h =
        roundTo (2.01 * (max 15 (min h 500) / 700) ^ ((2 : ℝ) / 11.5)) 3)
    ∧ ∀ (e : ExposureCategory) (h : ℝ), getKz e h = getKz e (max 15 (min h 500)) := by
  refine ⟨fun h => rfl, fun h => rfl, fun h => rfl, fun e h => ?_⟩
  have h1 : max 15 (min h 500) ≤ (500 : ℝ) := max_le (by norm_num) (min_le_right _ _)
  have h2 : (15 : ℝ) ≤ max 15 (min h 500) := le_max_left _ _
  simp only [getKz]
  rw [min_eq_left h1, max_eq_right h2]

/-- C10: `calculateVelocityPressure` checks only finiteness of the override,
not its sign: at `c10Input`, whose other fields sit in their documented ranges
but whose override is the finite negative number -1, the returned
`velocityPressurePsf` is strictly negative (it is `roundTo (-25.6) 3 = -25.6`). -/
theorem c10_negative_override_negative_qz :
    0 < c10Input.windSpeedMph ∧ c10Input.windSpeedMph < 300 ∧
    0 < c10Input.heightFt ∧
    0 < c10Input.directionalityFactor.getD 0.85 ∧
    c10Input.directionalityFactor.getD 0.85 ≤ 1 ∧
    1 ≤ c10Input.topographicFactor.getD 1.0 ∧
    c10Input.overrideKz = OverrideKz.finite (-1) ∧ (-1 : ℝ) < 0 ∧
    (calculateVelocityPressure c10Input).velocityPressurePsf < 0 := by
  refine ⟨by norm_num [c10Input], by norm_num [c10Input], by norm_num [c10Input],
    by norm_num [c10Input], by norm_num [c10Input], by norm_num [c10Input],
    rfl, by norm_num, ?_⟩
  simp only [calculateVelocityPressure, effectiveKz, c10Input, Option.getD, getImportanceFactor]
  norm_num [roundTo]

/-- Helper: the manual-override note is present exactly when the effective Kz
differs from the computed Kz (the `kz !== computedKz` guard of
`src/lib/wind.ts` line 45). -/
theorem hasOverrideNote_iff (inp : WindInput) :
    hasOverrideNote (calculateVelocityPressure inp).pressureNotes ↔
      effectiveKz inp ≠ getKz inp.exposure inp.heightFt := by
  by_cases h : effectiveKz inp = getKz inp.exposure inp.heightFt
  · simp [calculateVelocityPressure, hasOverrideNote, h]
  · simp [calculateVelocityPressure, hasOverrideNote, h]

/-- C4 counterexample: at `c4Input` the override is a finite number, yet no
override-used note appears in `pressureNotes`, refuting the claim that a
finite override always produces the note. -/
theorem c4_cex_override_note_absent :
    c4Input.overrideKz = OverrideKz.finite (getKz ExposureCategory.B 15) ∧
    ¬ hasOverrideNote (calculateVelocityPressure c4Input).pressureNotes := by
  refine ⟨rfl, ?_⟩
  rw [hasOverrideNote_iff]
  have h : effectiveKz c4Input = getKz c4Input.exposure c4Input.heightFt := rfl
  exact fun hne => hne h

/-- C4 as amended: the factor summary always reports the effective Kz; when
the override is a finite number the effective (and reported) Kz equals the
override and the override-used note appears if and only if the override
differs from the computed Kz; when the override is absent or non-finite the
computed Kz is used and no override note appears. -/
theorem c4_override_behavior (inp : WindInput) :
    (calculateVelocityPressure inp).pressureNotes.head? =
      some (Note.factorSummary (inp.riskCategory.getD RiskCategory.II)
        (inp.directionalityFactor.getD 0.85) (inp.topographicFactor.getD 1.0)
        (getImportanceFactor (inp.riskCategory.getD RiskCategory.II))
        (effectiveKz inp) (inp.khFactor.getD 1.0))
    ∧ (∀ x, inp.overrideKz = OverrideKz.finite x →
        effectiveKz inp = x ∧
        (hasOverrideNote (calculateVelocityPressure inp).pressureNotes ↔
          x ≠ getKz inp.exposure inp.heightFt))
    ∧ ((inp.overrideKz = OverrideKz.none ∨ inp.overrideKz = OverrideKz.nonfinite) →
        effectiveKz inp = getKz inp.exposure inp.heightFt ∧
        ¬ hasOverrideNote (calculateVelocityPressure inp).pressureNotes) := by
  refine ⟨rfl, ?_, ?_⟩
  · intro x hx
    have hk : effectiveKz inp = x := by simp [effectiveKz, hx]
    refine ⟨hk, ?_⟩
    rw [hasOverrideNote_iff, hk]
  · intro hx
    have hk : effectiveKz inp = getKz inp.exposure inp.heightFt := by
      rcases hx with h | h <;> simp [effectiveKz, h]
    refine ⟨hk, ?_⟩
    rw [hasOverrideNote_iff]
    exact fun hne => hne hk

/-- Witness for the amended C4, at a concrete input with no override: the
computed Kz is used and no override note appears. -/
theorem c4_override_behavior_witness :
    (c4WitnessInput.overrideKz = OverrideKz.none ∨
      c4WitnessInput.overrideKz = OverrideKz.nonfinite) ∧
    (effectiveKz c4WitnessInput = getKz c4WitnessInput.exposure c4WitnessInput.heightFt ∧
      ¬ hasOverrideNote (calculateVelocityPressure c4WitnessInput).pressureNotes) :=
  ⟨Or.inl rfl, (c4_override_behavior c4WitnessInput).2.2 (Or.inl rfl)⟩

/-- C6: the leeward wall Cp is piecewise linear in the L/B value with inclusive
upper band boundaries and is continuous at them: value -0.5 at 1.0 and below,
-0.3 exactly at 2.0, -0.2 at 4.0 and beyond, linear between, the linear pieces
given by the interpolation formula `cp_lo + (r − r_lo)·(cp_hi − cp_lo)/(r_hi − r_lo)`,
and `calculateWallCpValues` computes its leeward field by this function of
L/B. -/
theorem c6_leeward_cp :
    leewardOf 1 = -0.5 ∧ leewardOf 2 = -0.3 ∧ leewardOf 4 = -0.2
    ∧ (∀ r : ℝ, r ≤ 1 → leewardOf r = -0.5)
    ∧ (∀ r : ℝ, 1 ≤ r → r ≤ 2 →
        leewardOf r = -0.5 + (r - 1) * (-0.3 - (-0.5)) / (2 - 1))
    ∧ (∀ r : ℝ, 2 ≤ r → r ≤ 4 →
        leewardOf r = -0.3 + (r - 2) * (-0.2 - (-0.3)) / (4 - 2))
    ∧ (∀ r : ℝ, 4 ≤ r → leewardOf r = -0.2)
    ∧ ∀ L B : ℝ, (calculateWallCpValues L B).leeward = leewardOf (L / B) := by
  refine ⟨by norm_num [leewardOf], by norm_num [leewardOf], by norm_num [leewardOf],
    ?_, ?_, ?_, ?_, fun L B => rfl⟩
  · intro r hr
    simp only [leewardOf]
    rw [if_pos (by norm_num; linarith)]
  · intro r h1 h2
    by_cases hr : r ≤ 1
    · have : r = 1 := le_antisymm hr h1
      subst this
      norm_num [leewardOf]
    · simp only [leewardOf]
      rw [if_neg (by norm_num; linarith), if_pos (by norm_num; linarith)]
      norm_num
  · intro r h2 h4
    by_cases hr : r ≤ 2
    · have : r = 2 := le_antisymm hr h2
      subst this
      norm_num [leewardOf]
    · simp only [leewardOf]
      rw [if_neg (by norm_num; linarith), if_neg (by norm_num; linarith),
        if_pos (by norm_num; linarith)]
      norm_num
  · intro r hr
    by_cases h4 : r ≤ 4
    · have : r = 4 := le_antisymm h4 hr
      subst this
      norm_num [leewardOf]
    · simp only [leewardOf]
      rw [if_neg (by norm_num; linarith), if_neg (by norm_num; linarith),
        if_neg (by norm_num; linarith)]

/-- Witness for C6 at the concrete interior point 3/2 of the second band. -/
theorem c6_leeward_cp_witness :
    (1 : ℝ) ≤ 3 / 2 ∧ (3 : ℝ) / 2 ≤ 2 ∧
    leewardOf (3 / 2) = -0.5 + (3 / 2 - 1) * (-0.3 - (-0.5)) / (2 - 1) :=
  ⟨by norm_num, by norm_num,
    c6_leeward_cp.2.2.2.2.1 (3 / 2) (by norm_num) (by norm_num)⟩

/-- C7: the flat-roof (zone1, zone3) Cp pair steps by L/B band, tested in
ascending order with the first match winning: ≤ 0.5 gives (0.8, -0.7), ≤ 1.0
gives (0.7, -0.6), ≤ 2.0 gives (0.6, -0.5), and beyond 2.0 gives (0.5, -0.4);
zone2 is fixed at 0.5, and the sloped-roof pair is fixed at (0.3, -0.7)
independent of the plan dimensions. -/
theorem c7_roof_cp :
    (∀ r : ℝ, r ≤ 0.5 → flatZoneCps r = (0.8, -0.7))
    ∧ (∀ r : ℝ, 0.5 < r → r ≤ 1 → flatZoneCps r = (0.7, -0.6))
    ∧ (∀ r : ℝ, 1 < r → r ≤ 2 → flatZoneCps r = (0.6, -0.5))
    ∧ (∀ r : ℝ, 2 < r → flatZoneCps r = (0.5, -0.4))
    ∧ (∀ L B : ℝ, calculateRoofCpValues RoofType.flat L B =
        RoofCp.flatCp (flatZoneCps (L / B)).1 0.5 (flatZoneCps (L / B)).2)
    ∧ (∀ L B : ℝ, calculateRoofCpValues RoofType.sloped L B =
        RoofCp.slopedCp 0.3 (-0.7)) := by
  refine ⟨?_, ?_, ?_, ?_, fun L B => rfl, fun L B => rfl⟩
  · intro r hr
    simp only [flatZoneCps]
    rw [if_pos (by norm_num; linarith)]
  · intro r h05 h1
    simp only [flatZoneCps]
    rw [if_neg (by norm_num; linarith), if_pos (by norm_num; linarith)]
  · intro r h1 h2
    simp only [flatZoneCps]
    rw [if_neg (by norm_num; linarith), if_neg (by norm_num; linarith),
      if_pos (by norm_num; linarith)]
  · intro r h2
    simp only [flatZoneCps]
    rw [if_neg (by norm_num; linarith), if_neg (by norm_num; linarith),
      if_neg (by norm_num; linarith)]

/-- Witness for C7 at the concrete value 1/4 of the first band. -/
theorem c7_roof_cp_witness :
    (1 : ℝ) / 4 ≤ 0.5 ∧ flatZoneCps (1 / 4) = (0.8, -0.7) :=
  ⟨by norm_num, c7_roof_cp.1 (1 / 4) (by norm_num)⟩

/-- C8 counterexample: at L = 100, B = 50 the reported zone widths are
10 ft, 40 ft, 10 ft, whose sum 60 is not the perpendicular dimension B = 50,
refuting the claimed three-strip partition of B. -/
theorem c8_cex_zone_widths_sum :
    ((calculateRoofPressures RoofType.flat 25.6 0.85
        (getGcpiValues BuildingEnclosure.enclosed) 100 50 0.85).1.map
      PressureEntry.widthFt) = [some 10, some 40, some 10] ∧
    (10 : ℝ) + 40 + 10 ≠ 50 := by
  constructor
  · simp only [calculateRoofPressures, List.map]
    norm_num
  · norm_num

/-- C8 as amended: for every flat-roof evaluation the reported widths are
zone1Width = min(0.2·B, 0.1·L), zone2Width = B − zone1Width and zone3 reuses
zone1Width; zone1 and zone2 partition the perpendicular dimension B, while the
three reported strips sum to B + zone1Width (not B). -/
theorem c8_zone_widths (qz kd : ℝ) (gcpi : Gcpi) (L B G : ℝ) :
    ((calculateRoofPressures RoofType.flat qz kd gcpi L B G).1.map
        PressureEntry.widthFt) =
      [some (min (B * 0.2) (L * 0.1)), some (B - min (B * 0.2) (L * 0.1)),
        some (min (B * 0.2) (L * 0.1))]
    ∧ min (B * 0.2) (L * 0.1) + (B - min (B * 0.2) (L * 0.1)) = B
    ∧ min (B * 0.2) (L * 0.1) + (B - min (B * 0.2) (L * 0.1))
        + min (B * 0.2) (L * 0.1) = B + min (B * 0.2) (L * 0.1) :=
  ⟨rfl, by ring, by ring⟩

/-- C2 counterexample: at `cexForm` (Kd = 0.85) the roof-height velocity
pressure is 25.6 psf and the composed roof zone 2 pair is (5.3312, 13.1648),
which is not `q·G·Cp − q_i·Gcpi` with `q = q_i` equal to that roof-height
velocity pressure (that would give (6.272, 15.488)): the roof composition
scales both terms by Kd. -/
theorem c2_cex_roof_uses_scaled_velocity_pressure :
    (topResult cexForm).velocityPressurePsf = 25.6 ∧
    ((roofPressuresOf cexForm).map PressureEntry.pair) =
      [(7.1808, 15.0144), (5.3312, 13.1648), (-13.1648, -5.3312)] ∧
    ((5.3312 : ℝ), (13.1648 : ℝ)) ≠
      ((topResult cexForm).velocityPressurePsf * 0.85 * 0.5 -
        (topResult cexForm).velocityPressurePsf * 0.18,
       (topResult cexForm).velocityPressurePsf * 0.85 * 0.5 -
        (topResult cexForm).velocityPressurePsf * (-0.18)) := by
  refine ⟨cexForm_top, ?_, ?_⟩
  · simp only [roofPressuresOf, cexForm_top]
    simp only [cexForm, calculateRoofPressures, calculateGustEffectFactor,
      getGcpiValues, flatZoneCps, List.map]
    norm_num
  · rw [cexForm_top]
    simp only [Prod.mk.injEq, ne_eq, not_and]
    intro h
    norm_num at h

/-- C2 as amended: each wall pressure pair is `q·G·Cp − q_i·Gcpi` with `q` the
velocity pressure at the wall evaluation height and `q_i` the velocity pressure
at roof height; each roof zone pair uses the Kd-scaled roof-height velocity
pressure `q_i·Kd` for both its external and its internal term. -/
theorem c2_composed_pressures (f : FormInput) :
    (let q := (wallResult f).velocityPressurePsf
     let qi := (topResult f).velocityPressurePsf
     let G := calculateGustEffectFactor f.exposure ((f.numStories : ℝ) * f.storyHeightFt)
     let cp := calculateWallCpValues f.roofLength f.roofWidth
     let g := getGcpiValues f.buildingEnclosure
     (wallPressures f).map PressureEntry.pair =
       [ (q * G * cp.windward - qi * g.positive, q * G * cp.windward - qi * g.negative),
         (q * G * cp.leeward - qi * g.positive, q * G * cp.leeward - qi * g.negative),
         (q * G * cp.sidewall - qi * g.positive, q * G * cp.sidewall - qi * g.negative) ])
    ∧ (let qr := (topResult f).velocityPressurePsf * f.directionalityFactor
       let G := calculateGustEffectFactor f.exposure ((f.numStories : ℝ) * f.storyHeightFt)
       let g := getGcpiValues f.buildingEnclosure
       let z := flatZoneCps (f.roofLength / f.roofWidth)
       (roofPressuresOf f).map PressureEntry.pair =
         match f.roofType with
         | RoofType.flat =>
             [ (qr * G * z.1 - qr * g.positive, qr * G * z.1 - qr * g.negative),
               (qr * G * 0.5 - qr * g.positive, qr * G * 0.5 - qr * g.negative),
               (qr * G * z.2 - qr * g.positive, qr * G * z.2 - qr * g.negative) ]
         | RoofType.sloped =>
             [ (qr * G * 0.3 - qr * g.positive, qr * G * 0.3 - qr * g.negative),
               (qr * G * (-0.7) - qr * g.positive, qr * G * (-0.7) - qr * g.negative) ]) := by
  refine ⟨rfl, ?_⟩
  cases hrt : f.roofType <;>
    simp [roofPressuresOf, calculateRoofPressures, hrt]

/-- C3 counterexample: at `cexForm` (Kd = 0.85) the composed windward wall pair
is (12.8, 22.016), which is not the value of the composition with Kd as a
multiplier on the velocity-pressure terms (that would give (10.88, 18.6368)):
the wall composition does not apply Kd. -/
theorem c3_cex_wall_pressure_lacks_kd :
    ((wallPressures cexForm).map PressureEntry.pair) =
      [(12.8, 22.016), (-11.136, -1.92), (-19.84, -10.624)] ∧
    ((12.8 : ℝ), (22.016 : ℝ)) ≠
      (((wallResult cexForm).velocityPressurePsf * 0.85) * 0.85 * 0.8 -
        ((topResult cexForm).velocityPressurePsf * 0.85) * 0.18,
       ((wallResult cexForm).velocityPressurePsf * 0.85) * 0.85 * 0.8 -
        ((topResult cexForm).velocityPressurePsf * 0.85) * (-0.18)) := by
  constructor
  · simp only [wallPressures, cexForm_wall, cexForm_top]
    simp only [cexForm, calculateWallCpValues, leewardOf, getGcpiValues,
      calculateGustEffectFactor, List.map]
    norm_num
  · rw [cexForm_wall, cexForm_top]
    simp only [Prod.mk.injEq, ne_eq, not_and]
    intro h
    norm_num at h

/-- C3 as amended: the directionality factor Kd is not applied when computing
qz in `calculateVelocityPressure` (the returned `velocityPressurePsf` is
invariant under any change of `directionalityFactor`); the Pressure Composer
applies Kd as a multiplier on the velocity-pressure terms of every roof zone
pressure, but the wall pressures are composed from the unscaled velocity
pressures, without Kd. -/
theorem c3_kd_application :
    (∀ (inp : WindInput) (d : Option ℝ),
      (calculateVelocityPressure { inp with directionalityFactor := d }).velocityPressurePsf
        = (calculateVelocityPressure inp).velocityPressurePsf)
    ∧ (∀ f : FormInput,
        let qz := (topResult f).velocityPressurePsf
        let kd := f.directionalityFactor
        let G := calculateGustEffectFactor f.exposure ((f.numStories : ℝ) * f.storyHeightFt)
        let g := getGcpiValues f.buildingEnclosure
        let z := flatZoneCps (f.roofLength / f.roofWidth)
        (roofPressuresOf f).map PressureEntry.pair =
          match f.roofType with
          | RoofType.flat =>
              [ ((qz * kd) * G * z.1 - (qz * kd) * g.positive,
                 (qz * kd) * G * z.1 - (qz * kd) * g.negative),
                ((qz * kd) * G * 0.5 - (qz * kd) * g.positive,
                 (qz * kd) * G * 0.5 - (qz * kd) * g.negative),
                ((qz * kd) * G * z.2 - (qz * kd) * g.positive,
                 (qz * kd) * G * z.2 - (qz * kd) * g.negative) ]
          | RoofType.sloped =>
              [ ((qz * kd) * G * 0.3 - (qz * kd) * g.positive,
                 (qz * kd) * G * 0.3 - (qz * kd) * g.negative),
                ((qz * kd) * G * (-0.7) - (qz * kd) * g.positive,
                 (qz * kd) * G * (-0.7) - (qz * kd) * g.negative) ])
    ∧ (∀ f : FormInput,
        let q := (wallResult f).velocityPressurePsf
        let qi := (topResult f).velocityPressurePsf
        let G := calculateGustEffectFactor f.exposure ((f.numStories : ℝ) * f.storyHeightFt)
        let cp := calculateWallCpValues f.roofLength f.roofWidth
        let g := getGcpiValues f.buildingEnclosure
        (wallPressures f).map PressureEntry.pair =
          [ (q * G * cp.windward - qi * g.positive, q * G * cp.windward - qi * g.negative),
            (q * G * cp.leeward - qi * g.positive, q * G * cp.leeward - qi * g.negative),
            (q * G * cp.sidewall - qi * g.positive, q * G * cp.sidewall - qi * g.negative) ]) := by
  refine ⟨?_, ?_, fun f => rfl⟩
  · intro inp d
    simp [calculateVelocityPressure, effectiveKz]
  · intro f
    cases hrt : f.roofType <;>
      simp [roofPressuresOf, calculateRoofPressures, hrt]

/-- C9: for every exposure, the rounded exposure coefficient Kz is
monotonically non-decreasing as a function of the height on [15, 500]. -/
theorem c9_kz_monotone (e : ExposureCategory) (h₁ h₂ : ℝ)
    (_hlo : 15 ≤ h₁) (hle : h₁ ≤ h₂) (_hhi : h₂ ≤ 500) :
    getKz e h₁ ≤ getKz e h₂ := by
  have halpha : 0 < getAlpha e := by cases e <;> norm_num [getAlpha]
  have hzg : 0 < getZg e := by cases e <;> norm_num [getZg]
  have hz : max 15 (min h₁ 500) ≤ max 15 (min h₂ 500) :=
    max_le_max le_rfl (min_le_min hle le_rfl)
  have hz0 : (0 : ℝ) ≤ max 15 (min h₁ 500) :=
    le_trans (by norm_num) (le_max_left _ _)
  simp only [getKz]
  apply roundTo_three_mono
  apply mul_le_mul_of_nonneg_left ?_ (by norm_num)
  apply Real.rpow_le_rpow (div_nonneg hz0 hzg.le) ?_ (div_nonneg (by norm_num) halpha.le)
  exact (div_le_div_iff_of_pos_right hzg).mpr hz

/-- Witness for C9 at the concrete heights 20 ft and 30 ft, exposure B. -/
theorem c9_kz_monotone_witness :
    (15 : ℝ) ≤ 20 ∧ (20 : ℝ) ≤ 30 ∧ (30 : ℝ) ≤ 500 ∧
    getKz ExposureCategory.B 20 ≤ getKz ExposureCategory.B 30 :=
  ⟨by norm_num, by norm_num, by norm_num,
    c9_kz_monotone ExposureCategory.B 20 30 (by norm_num) (by norm_num) (by norm_num)⟩
